import Mathlib

/-!
Verification of the F1-Search-Engine routing and answer-composition core.

Shallow embedding of the query classifier (`parse_question`), the structured
answer engine (`answer_with_db` and friends), the live adapter wrapper
(`answer_with_live`), and the composer (`build_answer`) from `src/app.py`,
plus the NL-to-SQL safety policy and row cap from `src/backend/sql_agent.py`
and the citation handling of `ask_live` from `src/backend/rag_web.py`.

External collaborators (the DuckDB database, the Gemini service) are modelled
as explicit environments: each raw query or service call is a function of the
environment returning `Except Unit <rows>`, where `.error` models the call
raising an exception and `.ok` its result rows.  A numeric dataframe cell is
`Option Int`, with `none` modelling SQL NULL / pandas NaN; Python's `int(x)`
on such a cell raises, which the embedding reflects as `Except.error`.
Python functions that can raise are embedded in `Except String`; a top-level
`.error` of an embedded function means the Python function propagates an
exception to its caller.

String primitives (`strip`, `lower`, `title`, `split`, substring search) are
embedded over `List Char` following CPython semantics on ASCII text (the
Unicode-aware corners of `str.lower`/`\w`/`\d` that cannot differ on the
repository's ASCII keyword sets are approximated by the ASCII classes).
-/

namespace F1App

/-- Python whitespace class `\s` (ASCII part), also the class used by
`str.strip()` / `str.split()`. -/
def isPySpace (c : Char) : Bool :=
  c == ' ' || c == '\t' || c == '\n' || c == '\r' || c == '\x0b' || c == '\x0c'

/-- `str.strip()` on a character list: drop whitespace from both ends. -/
def pyStripL (l : List Char) : List Char :=
  ((l.dropWhile isPySpace).reverse.dropWhile isPySpace).reverse

/-- `str.lower()` (ASCII). -/
def pyLowerL (l : List Char) : List Char := l.map Char.toLower

/-- One step of `str.title()`: uppercase an alphabetic character that follows
a non-alphabetic one, lowercase the rest; `prevAlpha` says whether the
previous character was alphabetic. -/
def pyTitleAux : Bool → List Char → List Char
  | _, [] => []
  | prevAlpha, c :: rest =>
    (if c.isAlpha then (if prevAlpha then c.toLower else c.toUpper) else c)
      :: pyTitleAux c.isAlpha rest

/-- `str.title()` on a character list. -/
def pyTitleL (l : List Char) : List Char := pyTitleAux false l

/-- `str.title()` on a `String`. -/
def pyTitle (s : String) : String := String.mk (pyTitleL s.data)

/-- Does `needle` occur at the start of `hay`? (Both case-significant.) -/
def leadsWith : List Char → List Char → Bool
  | [], _ => true
  | _ :: _, [] => false
  | a :: as, b :: bs => a == b && leadsWith as bs

/-- Python's `needle in hay` substring test. -/
def strConts : List Char → List Char → Bool
  | hay@(_ :: t), needle => leadsWith needle hay || strConts t needle
  | [], needle => needle.isEmpty

/-- Substring test on `String`s: `sub in s` in Python. -/
def pyIn (sub s : String) : Bool := strConts s.data sub.data

/-- `str.split()` helper: accumulate the current word (reversed). -/
def pyWordsAux (cur : List Char) : List Char → List String
  | [] => if cur.isEmpty then [] else [String.mk cur.reverse]
  | c :: rest =>
    if isPySpace c then
      if cur.isEmpty then pyWordsAux [] rest
      else String.mk cur.reverse :: pyWordsAux [] rest
    else pyWordsAux (c :: cur) rest

/-- `str.split()` with no argument: split on whitespace runs, no empties. -/
def pyWords (l : List Char) : List String := pyWordsAux [] l

/-- ASCII apostrophe, written via its code point. -/
def apos : Char := Char.ofNat 39

/-! ## Query classifier: `parse_question` (src/app.py lines 198-245) -/

/-- Slot dictionary of `parse_question`.  Python uses a `dict`; a key that is
absent and a key bound to `None` are both modelled as `none` (the code only
reads slots via `args.get(...)`, for which the two are indistinguishable,
except `args["year"]` which the code only evaluates for intents that always
put the key in the dict). -/
structure Args where
  team : Option String
  driver : Option String
  year : Option Int
deriving DecidableEq, Repr

/-- Python truthiness of an `Optional[str]`: `None` and `""` are falsy. -/
def truthyOptStr : Option String → Bool
  | none => false
  | some s => s != ""

/-- Python truthiness of an `Optional[int]`: `None` and `0` are falsy. -/
def truthyOptInt : Option Int → Bool
  | none => false
  | some n => n != 0

/-- `x or y` on `Optional[int]` values (used for
`args.get("year") or _latest_year()`). -/
def pyOrOptInt (x y : Option Int) : Option Int :=
  match x with
  | some n => if n == 0 then y else some n
  | none => y

/-- Decimal digit value of an ASCII digit. -/
def digitVal (c : Char) : Int := Int.ofNat (c.toNat - 48)

/-- Attempt of the regex `YEAR_RE = (19|20)\d{2}` at the head of the list:
literal "19" or "20" followed by two digits, yielding the 4-digit year. -/
def yearAt : List Char → Option Int
  | '1' :: '9' :: a :: b :: _ =>
    if a.isDigit && b.isDigit then some (1900 + 10 * digitVal a + digitVal b)
    else none
  | '2' :: '0' :: a :: b :: _ =>
    if a.isDigit && b.isDigit then some (2000 + 10 * digitVal a + digitVal b)
    else none
  | _ => none

/-- `re.search(YEAR_RE, text)`: leftmost match, as the parsed year
(`int(m.group(0))`). -/
def searchYear : List Char → Option Int
  | [] => none
  | c :: rest =>
    match yearAt (c :: rest) with
    | some y => some y
    | none => searchYear rest

/-- The alternatives of `TEAM_RE`, in pattern order. -/
def TEAM_ALTS : List String :=
  ["ferrari", "mercedes", "red bull", "mclaren", "aston martin", "williams",
   "alpine", "sauber", "haas", "rb", "alphatauri", "toro rosso", "renault"]

/-- First `TEAM_RE` alternative matching at the head of the list
(regex alternation tries alternatives in pattern order). -/
def teamAltAt (l : List Char) : Option String :=
  TEAM_ALTS.find? (fun a => leadsWith a.data l)

/-- `re.search(TEAM_RE, text)`: leftmost match wins, alternatives tried in
pattern order at each position; yields `m.group(0)`. -/
def searchTeam : List Char → Option String
  | [] => none
  | c :: rest =>
    match teamAltAt (c :: rest) with
    | some a => some a
    | none => searchTeam rest

/-- Team slot extraction of `parse_question`: regex search on the lowered
text, `.title()`, then the two normalization `if`s (historical variants and
"Rb" casing), exactly as in src/app.py lines 209-218. -/
def extractTeam (text : List Char) : Option String :=
  match searchTeam text with
  | none => none
  | some s =>
    let team := pyTitle s
    let team :=
      if team == "Alpha Tauri" || team == "AlphaTauri" || team == "Toro Rosso"
      then "AlphaTauri" else team
    some (if team == "Rb" then "RB" else team)

/-- Lowercase ASCII letter test (`[a-z]`). -/
def isLowerAZ (c : Char) : Bool := 'a' ≤ c && c ≤ 'z'

/-- `re.match(r"^[A-Za-z][a-z]+ [A-Za-z][a-z\-']+$", cand)` where `cand` is
`words[i] ++ " " ++ words[i+1]` with space-free words: decomposes into the
two per-word patterns. -/
def driverCand (w1 w2 : String) : Bool :=
  (match w1.data with
   | c :: cs => c.isAlpha && !cs.isEmpty && cs.all isLowerAZ
   | [] => false) &&
  (match w2.data with
   | c :: cs =>
     c.isAlpha && !cs.isEmpty && cs.all (fun ch => isLowerAZ ch || ch == '-' || ch == apos)
   | [] => false)

/-- `_normalize_name` (src/app.py line 98): collapse whitespace runs to a
single space, strip, `.title()`. -/
def collapseWs : Bool → List Char → List Char
  | _, [] => []
  | prevWs, c :: rest =>
    if isPySpace c then
      if prevWs then collapseWs true rest else ' ' :: collapseWs true rest
    else c :: collapseWs false rest

/-- `_normalize_name(s)` = `re.sub(r"\s+", " ", s.strip()).title()`. -/
def normalizeName (s : String) : String :=
  pyTitle (String.mk (collapseWs false (pyStripL s.data)))

/-- The driver full-name heuristic of `parse_question`: scan consecutive
word pairs of `q.strip().split()` left to right, first match wins. -/
def findDriverAux : List String → Option String
  | w1 :: w2 :: rest =>
    if driverCand w1 w2 then some (normalizeName (w1 ++ " " ++ w2))
    else findDriverAux (w2 :: rest)
  | _ => none

/-- Driver slot extraction of `parse_question` (src/app.py lines 220-228);
works on the original-case question. -/
def findDriver (q : String) : Option String :=
  findDriverAux (pyWords (pyStripL q.data))

/-- The priority-ordered, first-match-wins intent mapping of
`parse_question` (src/app.py lines 230-245), taking the extracted slots.
Each returned `Args` mirrors the dict literal of the corresponding Python
`return` (absent keys are `none`). -/
def route (text : List Char) (year : Option Int) (team driver : Option String) :
    String × Args :=
  if (strConts text "who drives for".data || strConts text "drivers for".data
      || strConts text "who drives".data) && truthyOptStr team then
    ("team_drivers", ⟨team, none, year⟩)
  else if strConts text "wins".data && truthyOptStr driver then
    ("driver_wins", ⟨none, driver, year⟩)
  else if (strConts text "who won".data
      || (strConts text "champion".data && strConts text "driver".data))
      && truthyOptInt year then
    ("champ_driver", ⟨none, none, year⟩)
  else if strConts text "constructor".data && strConts text "champion".data
      && truthyOptInt year then
    ("champ_constructor", ⟨none, none, year⟩)
  else if (strConts text "points by race".data
      || (strConts text "points".data && strConts text "by race".data))
      && truthyOptStr team then
    ("team_points", ⟨team, none, year⟩)
  else
    ("auto", ⟨team, driver, year⟩)

/-- `parse_question` (src/app.py lines 198-245): lower and strip the
question, extract year/team/driver slots, and map to an intent tag. -/
def parse_question (q : String) : String × Args :=
  let text := pyLowerL (pyStripL q.data)
  route text (searchYear text) (extractTeam text) (findDriver q)

/-! ## Structured answer engine: `answer_with_db` (src/app.py lines 250-322)

The DuckDB database is external; each `q_*` query of src/app.py appears in
the environment as a raw outcome function (`Except Unit <rows>`, `.error`
modelling the query raising).  `_safe_query` (lines 51-57) catches every
exception and returns an empty dataframe, embedded by `safeQ`.  A numeric
cell is `Option Int` (`none` = NULL/NaN); `int(cell)` raises on `none`. -/

/-- One row of the champion queries (`q_driver_champion`,
`q_constructor_champion`): champion name, points, wins. -/
structure ChampRow where
  champion : String
  points : Option Int
  wins : Option Int
deriving DecidableEq, Repr

/-- One row of `q_points_by_race_for_constructor`: round, race name, summed
team points. -/
structure PtsRow where
  round : Option Int
  race : String
  pts : Option Int
deriving DecidableEq, Repr

/-- The database environment: the availability flag `DB_OK` and the raw
outcome of each parameterized query of src/app.py.  Parameters mirror the
Python call sites (`year` and `team`/`driver` may be `None` when they reach
the SQL layer).  A roster cell of the `driver` column is `Option String`:
`none` models a SQL NULL driver name, which the query can produce because
`(forename || ' ' || surname)` is NULL when either field is missing. -/
structure DBEnv where
  dbOk : Bool
  latestRaw : Except Unit (List (Option Int))
  teamDriversRaw : Option Int → Option String → Except Unit (List (Option String))
  driverWinsRaw : Option Int → Option String → Except Unit (List (Option Int))
  champDriverRaw : Int → Except Unit (List ChampRow)
  champConsRaw : Int → Except Unit (List ChampRow)
  ptsRaw : Option Int → Option String → Except Unit (List PtsRow)

/-- `_safe_query` (src/app.py lines 51-57): run the query; on any exception
return the empty dataframe (here: the given empty value). -/
def safeQ {α : Type} (empty : α) : Except Unit α → α
  | .error _ => empty
  | .ok a => a

/-- `_latest_year` (src/app.py lines 92-96): max year from `races`, `None`
when the query fails, returns no row, or the cell is NaN. -/
def latest_year (env : DBEnv) : Option Int :=
  match safeQ [] env.latestRaw with
  | [] => none
  | c :: _ => match c with | some y => some y | none => none

/-- `q_constructor_drivers` (src/app.py lines 101-120): resolve a missing
year to `_latest_year()`, then run the roster query through `_safe_query`. -/
def q_constructor_drivers (env : DBEnv) (team : Option String)
    (year : Option Int) : List (Option String) :=
  let y := match year with | none => latest_year env | some v => some v
  safeQ [] (env.teamDriversRaw y team)

/-- `q_driver_wins` (src/app.py lines 122-136). -/
def q_driver_wins (env : DBEnv) (driver : Option String) (year : Option Int) :
    List (Option Int) :=
  let y := match year with | none => latest_year env | some v => some v
  safeQ [] (env.driverWinsRaw y driver)

/-- `q_driver_champion` (src/app.py lines 138-159). -/
def q_driver_champion (env : DBEnv) (year : Int) : List ChampRow :=
  safeQ [] (env.champDriverRaw year)

/-- `q_constructor_champion` (src/app.py lines 161-176). -/
def q_constructor_champion (env : DBEnv) (year : Int) : List ChampRow :=
  safeQ [] (env.champConsRaw year)

/-- `q_points_by_race_for_constructor` (src/app.py lines 178-190). -/
def q_points_by_race (env : DBEnv) (team : Option String) (year : Option Int) :
    List PtsRow :=
  let y := match year with | none => latest_year env | some v => some v
  safeQ [] (env.ptsRaw y team)

/-- The exception message of Python's `int()` applied to a NaN cell. -/
def nanMsg : String := "ValueError: cannot convert float NaN to integer"

/-- `x or 0` on a numeric cell: `0` is falsy and is replaced by `0` (a
no-op); NaN (`none`) is truthy in Python and is kept, so the subsequent
`int(...)` still raises on it. -/
def pyOrZero : Option Int → Option Int
  | some n => if n == 0 then some 0 else some n
  | none => none

/-- Format an `Optional[str]` inside an f-string (`None` prints "None"). -/
def fmtOptStr : Option String → String
  | none => "None"
  | some s => s

/-- Format an `Optional[int]` inside an f-string. -/
def fmtOptInt : Option Int → String
  | none => "None"
  | some n => toString n

/-- Python's `<` on strings: lexicographic comparison by code point. -/
def pyStrLtL : List Char → List Char → Bool
  | [], [] => false
  | [], _ :: _ => true
  | _ :: _, [] => false
  | a :: as, b :: bs =>
    if a.toNat < b.toNat then true
    else if b.toNat < a.toNat then false
    else pyStrLtL as bs

/-- `x < y` on `String`s, Python semantics. -/
def pyStrLt (x y : String) : Bool := pyStrLtL x.data y.data

/-- Python's `sorted` on strings: insertion sort by code-point order. -/
def insSorted (s : String) : List String → List String
  | [] => [s]
  | t :: ts => if pyStrLt t s then t :: insSorted s ts else s :: t :: ts

/-- Ascending sort of a string list (`sorted(...)`). -/
def pySorted : List String → List String
  | [] => []
  | s :: ts => insSorted s (pySorted ts)

/-- `pandas.Series.unique` helper: deduplicate against already-seen values
(`None` cells are ordinary hashable values for `unique`). -/
def pyUniqueAux {α : Type} [BEq α] (seen : List α) : List α → List α
  | [] => []
  | s :: ts =>
    if seen.contains s then pyUniqueAux seen ts
    else s :: pyUniqueAux (s :: seen) ts

/-- `pandas.Series.unique`: deduplicate keeping first occurrences. -/
def pyUnique {α : Type} [BEq α] (l : List α) : List α := pyUniqueAux [] l

/-- The exception message of `sorted(...)` comparing `None` with `str`. -/
def sortNoneMsg : String :=
  "TypeError: < not supported between instances of NoneType and str"

/-- The exception message of `", ".join(...)` meeting a `None` item. -/
def joinNoneMsg : String :=
  "TypeError: sequence item: expected str instance, NoneType found"

/-- `", ".join(sorted(uniq))` over the deduplicated roster column
(src/app.py line 261), where a cell is `none` for a SQL NULL driver name.
CPython's `sorted` raises `TypeError` the moment it compares `None` with a
string, which happens exactly when the list has at least two elements and
contains a `None` (in a list of length >= 2 every element takes part in
some comparison); the surviving singleton `[None]` then makes `", ".join`
raise instead.  So the step raises exactly when some cell is NULL, and
otherwise sorts the strings by code point and joins them. -/
def formatDrivers (uniq : List (Option String)) : Except String String :=
  if uniq.contains none then
    if 2 ≤ uniq.length then .error sortNoneMsg else .error joinNoneMsg
  else .ok (String.intercalate ", " (pySorted (uniq.filterMap id)))

/-- The `team_drivers` block of `answer_with_db` (src/app.py lines 255-262):
`None` when the roster query yields no rows; otherwise
`", ".join(sorted(df["driver"].unique()))`, which raises `TypeError` when
the driver column contains a SQL NULL cell (see `formatDrivers`). -/
def handleTeamDrivers (env : DBEnv) (a : Args) : Except String (Option String) :=
  let team := a.team
  let year := pyOrOptInt a.year (latest_year env)
  match q_constructor_drivers env team year with
  | [] => .ok none
  | rows@(_ :: _) =>
    match formatDrivers (pyUnique rows) with
    | .error e => .error e
    | .ok drivers =>
      .ok (some ("**" ++ fmtOptStr team ++ "** drivers in **" ++ fmtOptInt year
        ++ "**: " ++ drivers ++ "."))

/-- The `driver_wins` block (src/app.py lines 264-271):
`int(df.iloc[0]["wins"] or 0)` raises when the cell is NaN. -/
def handleDriverWins (env : DBEnv) (a : Args) : Except String (Option String) :=
  let driver := a.driver
  let year := pyOrOptInt a.year (latest_year env)
  match q_driver_wins env driver year with
  | [] => .ok none
  | c :: _ =>
    match pyOrZero c with
    | none => .error nanMsg
    | some w =>
      .ok (some ("**" ++ fmtOptStr driver ++ "** wins in **" ++ fmtOptInt year
        ++ "**: **" ++ toString w ++ "**."))

/-- The `champ_driver` block (src/app.py lines 273-279): `int(args["year"])`
raises when the year slot is missing; `int(row['points'])` /
`int(row['wins'])` raise on NaN cells. -/
def handleChampDriver (env : DBEnv) (a : Args) : Except String (Option String) :=
  match a.year with
  | none => .error "TypeError: int() argument cannot be None"
  | some y =>
    match q_driver_champion env y with
    | [] => .ok none
    | r :: _ =>
      match r.points with
      | none => .error nanMsg
      | some p =>
        match r.wins with
        | none => .error nanMsg
        | some w =>
          .ok (some ("**" ++ toString y ++ " F1 Driver Champion:** **"
            ++ r.champion ++ "**  \nPoints: " ++ toString p ++ " • Wins: "
            ++ toString w))

/-- The `champ_constructor` block (src/app.py lines 281-287). -/
def handleChampCons (env : DBEnv) (a : Args) : Except String (Option String) :=
  match a.year with
  | none => .error "TypeError: int() argument cannot be None"
  | some y =>
    match q_constructor_champion env y with
    | [] => .ok none
    | r :: _ =>
      match r.points with
      | none => .error nanMsg
      | some p =>
        match r.wins with
        | none => .error nanMsg
        | some w =>
          .ok (some ("**" ++ toString y ++ " F1 Constructors’ Champion:** **"
            ++ r.champion ++ "**  \nPoints: " ++ toString p ++ " • Wins: "
            ++ toString w))

/-- The per-row bullet lines of the `team_points` block (src/app.py lines
294-296): `int(r['round'])` / `int(r['team_points'])` raise on NaN. -/
def ptsLines : List PtsRow → Except String (List String)
  | [] => .ok []
  | r :: t =>
    match r.round with
    | none => .error nanMsg
    | some rd =>
      match r.pts with
      | none => .error nanMsg
      | some p =>
        match ptsLines t with
        | .error e => .error e
        | .ok rest =>
          .ok (("- Round " ++ toString rd ++ ": " ++ r.race ++ " — **"
            ++ toString p ++ "** pts") :: rest)

/-- The `team_points` block (src/app.py lines 289-297). -/
def handleTeamPoints (env : DBEnv) (a : Args) : Except String (Option String) :=
  let team := a.team
  let year := pyOrOptInt a.year (latest_year env)
  match q_points_by_race env team year with
  | [] => .ok none
  | rows@(_ :: _) =>
    match ptsLines rows with
    | .error e => .error e
    | .ok lines =>
      .ok (some (String.intercalate "\n"
        (("**" ++ fmtOptStr team ++ " points by race in " ++ fmtOptInt year
          ++ ":**") :: lines)))

/-- `answer_with_db` restricted to the five concrete intents (the Python
recursion from the `auto` block only ever re-enters with these). -/
def answer_with_db1 (env : DBEnv) (intent : String) (a : Args) :
    Except String (Option String) :=
  if env.dbOk then
    if intent == "team_drivers" then handleTeamDrivers env a
    else if intent == "driver_wins" then handleDriverWins env a
    else if intent == "champ_driver" then handleChampDriver env a
    else if intent == "champ_constructor" then handleChampCons env a
    else if intent == "team_points" then handleTeamPoints env a
    else .ok none
  else .ok none

/-- One step of the `auto` fallback chain: Python's
`out = answer_with_db(...); if out: return out` — propagate an exception,
return a truthy result, otherwise continue. -/
def auStep (r : Except String (Option String))
    (next : Except String (Option String)) : Except String (Option String) :=
  match r with
  | .error e => .error e
  | .ok out => if truthyOptStr out then .ok out else next

/-- The `auto` block of `answer_with_db` (src/app.py lines 299-319): resolve
the year once, then try team roster → driver champion → constructor champion
→ driver wins, stopping at the first truthy result; a skipped guard (falsy
slot) contributes nothing. -/
def autoBranch (env : DBEnv) (a : Args) : Except String (Option String) :=
  let year := pyOrOptInt a.year (latest_year env)
  auStep (if truthyOptStr a.team
          then answer_with_db1 env "team_drivers" ⟨a.team, none, year⟩
          else .ok none)
  (auStep (if truthyOptInt year
           then answer_with_db1 env "champ_driver" ⟨none, none, year⟩
           else .ok none)
  (auStep (if truthyOptInt year
           then answer_with_db1 env "champ_constructor" ⟨none, none, year⟩
           else .ok none)
  (auStep (if truthyOptStr a.driver
           then answer_with_db1 env "driver_wins" ⟨none, a.driver, year⟩
           else .ok none)
   (.ok none))))

/-- `answer_with_db` (src/app.py lines 250-322): `None` without a database;
dispatch on the intent tag; unknown intents fall through to `None`. -/
def answer_with_db (env : DBEnv) (intent : String) (a : Args) :
    Except String (Option String) :=
  if env.dbOk then
    if intent == "auto" then autoBranch env a
    else answer_with_db1 env intent a
  else .ok none

/-! ## Live adapter wrapper: `answer_with_live` (src/app.py lines 324-342) -/

/-- The live environment: the `LIVE_OK` flag and the raw outcome of one
Gemini call on a prompt (`.error` = the call raised; `.ok none` =
`rsp.text` was `None`). -/
structure LiveEnv where
  liveOk : Bool
  call : String → Except Unit (Option String)

/-- The fixed prompt header that `answer_with_live` puts in front of every
question (src/app.py lines 330-334). -/
def LIVE_HEADER : String :=
  "Answer the F1-related question concisely (2–4 sentences). "
  ++ "If the question is not F1-specific, gently steer back to F1. "
  ++ "Question: "

/-- The prompt sent to the live service: header plus the raw question. -/
def livePrompt (q : String) : String := LIVE_HEADER ++ q

/-- `answer_with_live` (src/app.py lines 324-342): `None` when live is off;
the whole call is inside `try/except` returning `None`; otherwise
`(rsp.text or "").strip()`, with the empty string mapped to `None`. -/
def answer_with_live (lenv : LiveEnv) (q : String) : Option String :=
  if lenv.liveOk then
    match lenv.call (livePrompt q) with
    | .error _ => none
    | .ok t =>
      let txt := String.mk (pyStripL (t.getD "").data)
      if txt == "" then none else some txt
  else none

/-! ## Composer: `build_answer` (src/app.py lines 344-359) -/

/-- The fixed final fallback message (src/app.py lines 357-359). -/
def FALLBACK_MSG : String :=
  "I didn’t find a result with the current back-ends. "
  ++ "Try a more specific F1 query, or enable DB/LIVE in your deployment."

/-- `build_answer` (src/app.py lines 344-359): classify, try the structured
backend, then the live backend, then the fixed fallback.  There is no
`try/except` in this function: an exception from `answer_with_db` (an
`.error`) propagates to the caller. -/
def build_answer (env : DBEnv) (lenv : LiveEnv) (q : String) :
    Except String String :=
  match answer_with_db env (parse_question q).1 (parse_question q).2 with
  | .error e => .error e
  | .ok out =>
    if truthyOptStr out then .ok (out.getD "")
    else
      let out2 := answer_with_live lenv q
      if truthyOptStr out2 then .ok (out2.getD "")
      else .ok FALLBACK_MSG

end F1App

namespace SqlAgent

open F1App (isPySpace pyStripL leadsWith)

/-! ## NL-to-SQL safety policy and row cap (src/backend/sql_agent.py)

The Gemini call and the fenced-block extraction (lines 110-129) involve an
external service; the embedding starts from the candidate statement
`m.group(1)` — the text of the first ```sql fenced block of the response —
and covers the safety checks of `llm_to_sql` (lines 130-142) and the
row-cap logic of `answer` (lines 144-162).  The query execution itself
(DuckDB) is external and not modelled. -/

/-- Python word-class `\w` (ASCII part): letters, digits, underscore. -/
def isWordChar (c : Char) : Bool := c.isAlphanum || c == '_'

/-- A `\b` word boundary holds after a word character when the remaining
text is empty or starts with a non-word character. -/
def wordBound : List Char → Bool
  | [] => true
  | c :: _ => !(isWordChar c)

/-- Case-insensitive `leadsWith`: `needle` (lowercase) at the head of
`hay`. -/
def ciLeads : List Char → List Char → Bool
  | [], _ => true
  | _ :: _, [] => false
  | a :: as, b :: bs => a == b.toLower && ciLeads as bs

/-- `re.match(r"^\s*(with|select)\b", sql, re.I)`: optional leading
whitespace, then `with` or `select` (case-insensitive) at a word
boundary. -/
def startsSelWith (sql : List Char) : Bool :=
  let r := sql.dropWhile isPySpace
  (ciLeads "with".data r && wordBound (r.drop 4))
    || (ciLeads "select".data r && wordBound (r.drop 6))

/-- ASCII semicolon. -/
def semi : Char := Char.ofNat 59

/-- `";" in sql.strip()[:-1]`: a semicolon anywhere but the last position of
the stripped statement — i.e. a semicolon followed by further statement
text. -/
def chainSemi (sql : List Char) : Bool := (pyStripL sql).dropLast.contains semi

/-- The safety-check tail of `llm_to_sql` (src/backend/sql_agent.py lines
130-142), applied to the raw fenced-block content: strip it, reject
anything that is not a single `SELECT`/`WITH` statement, reject statement
chaining (one trailing semicolon is fine), otherwise accept the stripped
statement.  (The table-whitelist check of lines 137-141 is deliberately
non-fatal in the source — `pass` — and has no effect.) -/
def llm_to_sql_safety (raw : String) : Except String String :=
  let sql := pyStripL raw.data
  if !startsSelWith sql then .error "Only SELECT/WITH queries are allowed."
  else if chainSemi sql then .error "Multiple statements not allowed."
  else .ok (String.mk sql)

/-- `re.search(r"\blimit\b", sql, re.I)` as a Boolean: scan every position,
requiring a word boundary on both sides.  `prevW` records whether the
previous character is a word character. -/
def hasLimitKwAux : Bool → List Char → Bool
  | _, [] => false
  | prevW, c :: rest =>
    (!prevW && ciLeads "limit".data (c :: rest) && wordBound ((c :: rest).drop 5))
      || hasLimitKwAux (isWordChar c) rest

/-- Does the statement contain a `LIMIT` keyword? -/
def hasLimitKw (sql : String) : Bool := hasLimitKwAux false sql.data

/-- The aggregation-function names of the row-cap check. -/
def AGG_KWS : List String := ["count", "sum", "avg", "min", "max"]

/-- At one position: `\b(count|sum|avg|min|max)\s*\(` — one of the keywords
after a word boundary, then optional whitespace, then an opening paren. -/
def aggAt (prevW : Bool) (l : List Char) : Bool :=
  !prevW && AGG_KWS.any (fun kw =>
    ciLeads kw.data l &&
      (match (l.drop kw.length).dropWhile isPySpace with
       | '(' :: _ => true
       | _ => false))

/-- `re.search(r"\b(count|sum|avg|min|max)\s*\(", sql, re.I)` as a scan. -/
def hasAggAux : Bool → List Char → Bool
  | _, [] => false
  | prevW, c :: rest => aggAt prevW (c :: rest) || hasAggAux (isWordChar c) rest

/-- Does the statement contain an aggregation-function application? -/
def hasAgg (sql : String) : Bool := hasAggAux false sql.data

/-- At one position: `\bgroup\s+by\b` — `group` after a word boundary, at
least one whitespace character, `by` at a word boundary. -/
def groupByAt (prevW : Bool) (l : List Char) : Bool :=
  !prevW && ciLeads "group".data l &&
    (match l.drop 5 with
     | c :: rest =>
       isPySpace c &&
         (let r := rest.dropWhile isPySpace
          ciLeads "by".data r && wordBound (r.drop 2))
     | [] => false)

/-- `re.search(r"\bgroup\s+by\b", sql, re.I)` as a scan. -/
def hasGroupByAux : Bool → List Char → Bool
  | _, [] => false
  | prevW, c :: rest => groupByAt prevW (c :: rest) || hasGroupByAux (isWordChar c) rest

/-- Does the statement contain a `GROUP BY` clause? -/
def hasGroupBy (sql : String) : Bool := hasGroupByAux false sql.data

/-- The `needs_limit` condition of `answer` (src/backend/sql_agent.py lines
148-156): no `LIMIT`, no aggregation function, no `GROUP BY`. -/
def needs_limit (sql : String) : Bool :=
  !hasLimitKw sql && !hasAgg sql && !hasGroupBy sql

/-- The row-cap step of `answer` (lines 157-158): append
`"\nLIMIT {max_rows}"` exactly when `needs_limit` holds. -/
def applyRowCap (sql : String) (maxRows : Nat) : String :=
  if needs_limit sql then sql ++ ("\nLIMIT " ++ toString maxRows) else sql

/-- `answer` up to query execution (lines 144-158): `llm_to_sql` (whose
safety rejection raises out of `answer` to its caller — there is no
`try/except` around it), then the row cap on the accepted statement. -/
def answerPipeline (raw : String) (maxRows : Nat) : Except String String :=
  match llm_to_sql_safety raw with
  | .error e => .error e
  | .ok sql => .ok (applyRowCap sql maxRows)

end SqlAgent

namespace RagWeb

open F1App (pyStripL)

/-! ## Live adapter citations: `ask_live` (src/backend/rag_web.py lines 11-56)

The Gemini response is external: the embedding takes the raw `resp.text`
attribute (`Option String`) and the citation list that the defensive
grounding-metadata block (lines 27-41, wrapped in `try/except`) extracted
from `resp.candidates[0].grounding_metadata` — possibly empty, both when
the metadata is absent and when that block raised.  The markdown-link
fallback, URL deduplication and the cap of 8 are embedded from source. -/

/-- One citation: title and URL. -/
structure Citation where
  title : String
  url : String
deriving DecidableEq, Repr

/-- A live-service response as seen by `ask_live`: the `text` attribute and
the grounding-metadata citations. -/
structure LiveRsp where
  text : Option String
  meta : List Citation
deriving DecidableEq, Repr

/-- Is the span a valid URL group `https?://[^\)]+` (case-sensitive, at
least one character after the protocol)?  Its characters are already known
to exclude the closing paren. -/
def urlOk : List Char → Bool
  | 'h' :: 't' :: 't' :: 'p' :: rest =>
    (match rest with
     | 's' :: ':' :: '/' :: '/' :: body => !body.isEmpty
     | ':' :: '/' :: '/' :: body => !body.isEmpty
     | _ => false)
  | _ => false

/-- One step of `re.finditer(r"\[([^\]]+)\]\((https?://[^\)]+)\)", text)`:
on a failed attempt the scan advances one character; on success it resumes
after the match.  The fuel argument starts at the text length and bounds
the recursion (each step consumes at least one character, so it never runs
out before the text does). -/
def mdScan : Nat → List Char → List Citation
  | 0, _ => []
  | _ + 1, [] => []
  | fuel + 1, c :: rest =>
    if c == '[' then
      let title := rest.takeWhile (fun ch => ch != ']')
      match rest.drop title.length with
      | ']' :: '(' :: r2 =>
        if title.isEmpty then mdScan fuel rest
        else
          let span := r2.takeWhile (fun ch => ch != ')')
          (match r2.drop span.length with
           | ')' :: r3 =>
             if urlOk span then
               ⟨String.mk title, String.mk span⟩ :: mdScan fuel r3
             else mdScan fuel rest
           | _ => mdScan fuel rest)
      | _ => mdScan fuel rest
    else mdScan fuel rest

/-- The markdown-link fallback parse of `ask_live` (lines 44-47). -/
def mdLinks (s : String) : List Citation := mdScan s.data.length s.data

/-- The URL deduplication loop of `ask_live` (lines 49-55): keep the first
citation for each URL, tracking seen URLs. -/
def dedupeUrl (seen : List String) : List Citation → List Citation
  | [] => []
  | c :: t =>
    if seen.contains c.url then dedupeUrl seen t
    else c :: dedupeUrl (c.url :: seen) t

/-- `ask_live` (src/backend/rag_web.py lines 11-56) on a response: resolve
`text` via `getattr(resp, "text", None) or "No answer."`, use the
grounding-metadata citations, fall back to the markdown parse only when
they are empty, deduplicate by URL, and cap at 8. -/
def ask_live (r : LiveRsp) : String × List Citation :=
  let text :=
    match r.text with
    | none => "No answer."
    | some t => if t == "" then "No answer." else t
  let citations := r.meta
  let citations := if citations.isEmpty then mdLinks text else citations
  (text, (dedupeUrl [] citations).take 8)

end RagWeb

namespace F1App

/-! ## Derived definitions and concrete environments used in the proofs -/

/-- The intent tags that `parse_question` can produce. -/
def intentTags : List String :=
  ["team_drivers", "driver_wins", "champ_driver", "champ_constructor",
   "team_points", "auto"]

/-- Did the embedded Python computation finish without an exception? -/
def exOk {ε α : Type} : Except ε α → Bool
  | .ok _ => true
  | .error _ => false

/-- A database environment is well-formed when no returned row carries a
NULL/NaN numeric cell in a position that `answer_with_db` converts with
`int(...)`, and no roster row carries a NULL driver-name cell (which would
make the `sorted`/`join` of the `team_drivers` block raise). -/
structure WellFormedDB (env : DBEnv) : Prop where
  teamD : ∀ y t rows, env.teamDriversRaw y t = .ok rows →
    ∀ c ∈ rows, c.isSome = true
  wins : ∀ y d rows, env.driverWinsRaw y d = .ok rows →
    ∀ c ∈ rows, c.isSome = true
  champD : ∀ y rows, env.champDriverRaw y = .ok rows →
    ∀ r ∈ rows, r.points.isSome = true ∧ r.wins.isSome = true
  champC : ∀ y rows, env.champConsRaw y = .ok rows →
    ∀ r ∈ rows, r.points.isSome = true ∧ r.wins.isSome = true
  pts : ∀ y t rows, env.ptsRaw y t = .ok rows →
    ∀ r ∈ rows, r.round.isSome = true ∧ r.pts.isSome = true

/-- An environment in which every structured query raises when executed. -/
structure AllFailDB (env : DBEnv) : Prop where
  latest : env.latestRaw = .error ()
  teamD : ∀ y t, env.teamDriversRaw y t = .error ()
  wins : ∀ y d, env.driverWinsRaw y d = .error ()
  champD : ∀ y, env.champDriverRaw y = .error ()
  champC : ∀ y, env.champConsRaw y = .error ()
  pts : ∀ y t, env.ptsRaw y t = .error ()

/-! ## Concrete environments used by witnesses and counterexamples -/

/-- Environment with no database (`DB_OK = false`); every raw query raises
(it is never executed anyway). -/
def envOff : DBEnv :=
  ⟨false, .error (), fun _ _ => .error (), fun _ _ => .error (),
   fun _ => .error (), fun _ => .error (), fun _ _ => .error ()⟩

/-- Environment with a database whose every query raises during execution. -/
def envAllFail : DBEnv :=
  ⟨true, .error (), fun _ _ => .error (), fun _ _ => .error (),
   fun _ => .error (), fun _ => .error (), fun _ _ => .error ()⟩

/-- Environment whose champion query returns a row with a NULL/NaN `points`
cell for every year. -/
def envNan : DBEnv :=
  ⟨true, .ok [], fun _ _ => .ok [], fun _ _ => .ok [],
   fun _ => .ok [⟨"Max Verstappen", none, some 10⟩],
   fun _ => .ok [], fun _ _ => .ok []⟩

/-- Environment answering the 2021 driver-championship query with a
well-formed row and everything else with no rows. -/
def envChamp : DBEnv :=
  ⟨true, .ok [], fun _ _ => .ok [], fun _ _ => .ok [],
   fun y => if y == 2021 then .ok [⟨"Max Verstappen", some 395, some 10⟩]
            else .ok [],
   fun _ => .ok [], fun _ _ => .ok []⟩

/-- Live environment with the live backend off. -/
def lenvOff : LiveEnv := ⟨false, fun _ => .error ()⟩

/-- Live environment that echoes the prompt it receives, making the text
dispatched to the live service observable in the composed answer. -/
def lenvEcho : LiveEnv := ⟨true, fun s => .ok (some s)⟩

/-- Environment whose roster query returns a NULL driver-name cell among
strings (the `sorted` raise path of the `team_drivers` block). -/
def envNullDriver : DBEnv :=
  ⟨true, .ok [],
   fun _ _ => .ok [some "Carlos Sainz", none, some "Charles Leclerc"],
   fun _ _ => .ok [], fun _ => .ok [], fun _ => .ok [], fun _ _ => .ok []⟩

/-- Environment whose roster query returns only NULL driver-name cells
(the `join` raise path: `unique` collapses them to a sortable singleton). -/
def envNullOnly : DBEnv :=
  ⟨true, .ok [], fun _ _ => .ok [none, none],
   fun _ _ => .ok [], fun _ => .ok [], fun _ => .ok [], fun _ _ => .ok []⟩

/-- Environment whose roster query returns a NULL-free driver column with a
duplicate (the normal dedup-sort-join path). -/
def envRoster : DBEnv :=
  ⟨true, .ok [],
   fun _ _ => .ok [some "Carlos Sainz", some "Charles Leclerc",
                   some "Carlos Sainz"],
   fun _ _ => .ok [], fun _ => .ok [], fun _ => .ok [], fun _ _ => .ok []⟩

end F1App


namespace F1App

/-! ## Helper lemmas -/

theorem truthyOptInt_isSome {y : Option Int} (h : truthyOptInt y = true) :
    y.isSome = true := by
  cases y <;> simp_all [truthyOptInt]

theorem route_intent_mem (text : List Char) (year : Option Int)
    (team driver : Option String) :
    (route text year team driver).1 ∈ intentTags := by
  unfold route
  split_ifs <;> simp [intentTags]

theorem route_champ_year (text : List Char) (year : Option Int)
    (team driver : Option String)
    (h : (route text year team driver).1 = "champ_driver"
       ∨ (route text year team driver).1 = "champ_constructor") :
    (route text year team driver).2.year.isSome = true := by
  unfold route at *
  split_ifs at * with h1 h2 h3 h4 h5 <;> simp_all <;>
    exact truthyOptInt_isSome (by simp_all)

theorem parse_intent_mem (q : String) : (parse_question q).1 ∈ intentTags :=
  route_intent_mem _ _ _ _

theorem parse_champ_year (q : String)
    (h : (parse_question q).1 = "champ_driver"
       ∨ (parse_question q).1 = "champ_constructor") :
    (parse_question q).2.year.isSome = true :=
  route_champ_year _ _ _ _ h

/-- `answer_with_live` never returns `some ""`: the empty stripped text is
mapped to `None`. -/
theorem live_some_ne {lenv : LiveEnv} {q t : String}
    (h : answer_with_live lenv q = some t) : t ≠ "" := by
  unfold answer_with_live at h
  by_cases hok : lenv.liveOk = true
  · simp only [hok, if_true] at h
    rcases hc : lenv.call (livePrompt q) with e | t0 <;> rw [hc] at h
    · simp at h
    · dsimp only at h
      split at h
      · simp at h
      · rename_i hne
        cases h
        simpa using hne
  · simp only [Bool.not_eq_true] at hok
    simp [hok] at h

/-- When the structured backend produces a truthy answer, the composer
returns it unchanged. -/
theorem build_db_first (env : DBEnv) (lenv : LiveEnv) (q s : String)
    (h : answer_with_db env (parse_question q).1 (parse_question q).2
        = .ok (some s))
    (hs : s ≠ "") : build_answer env lenv q = .ok s := by
  unfold build_answer
  rw [h]
  simp [truthyOptStr, hs]

/-- When the structured backend produces nothing, the composer returns the
live answer when there is one, and the fixed fallback otherwise. -/
theorem build_db_none (env : DBEnv) (lenv : LiveEnv) (q : String)
    (h : answer_with_db env (parse_question q).1 (parse_question q).2
        = .ok none) :
    build_answer env lenv q = .ok ((answer_with_live lenv q).getD FALLBACK_MSG) := by
  unfold build_answer
  rw [h]
  simp only [truthyOptStr, if_false]
  rcases hl : answer_with_live lenv q with _ | t
  · simp [truthyOptStr]
  · have ht : t ≠ "" := live_some_ne hl
    simp [truthyOptStr, ht]

/-- `pyUniqueAux` only returns elements of its input list. -/
theorem pyUniqueAux_mem {α : Type} [BEq α] (seen : List α) (l : List α) :
    ∀ c ∈ pyUniqueAux seen l, c ∈ l := by
  induction l generalizing seen with
  | nil => intro c hc; cases hc
  | cons a t ih =>
    intro c hc
    unfold pyUniqueAux at hc
    by_cases hs : seen.contains a = true
    · rw [if_pos hs] at hc
      exact List.mem_cons_of_mem _ (ih seen c hc)
    · rw [if_neg hs] at hc
      rcases List.mem_cons.mp hc with rfl | hmem
      · exact List.mem_cons_self _ _
      · exact List.mem_cons_of_mem _ (ih (a :: seen) c hmem)

theorem handleTeamDrivers_ok {env : DBEnv} (wf : WellFormedDB env) (a : Args) :
    exOk (handleTeamDrivers env a) = true := by
  unfold handleTeamDrivers q_constructor_drivers
  dsimp only
  rcases hraw : env.teamDriversRaw
      (match pyOrOptInt a.year (latest_year env) with
       | none => latest_year env
       | some v => some v) a.team with e | rows
  · rfl
  · rcases rows with _ | ⟨c, t⟩
    · rfl
    · have hall := wf.teamD _ _ _ hraw
      have hnone : (pyUnique (c :: t)).contains none = false := by
        by_contra hcon
        rw [Bool.not_eq_false] at hcon
        have hmem : (none : Option String) ∈ pyUnique (c :: t) := by
          simpa using hcon
        have hmem2 : (none : Option String) ∈ c :: t :=
          pyUniqueAux_mem [] (c :: t) none hmem
        have hsome := hall none hmem2
        simp at hsome
      show exOk (match formatDrivers (pyUnique (c :: t)) with
        | .error e => Except.error e
        | .ok drivers => Except.ok (some _)) = true
      unfold formatDrivers
      rw [hnone]
      rfl

theorem handleDriverWins_ok {env : DBEnv} (wf : WellFormedDB env) (a : Args) :
    exOk (handleDriverWins env a) = true := by
  unfold handleDriverWins q_driver_wins
  dsimp only
  rcases hraw : env.driverWinsRaw
      (match pyOrOptInt a.year (latest_year env) with
       | none => latest_year env
       | some v => some v) a.driver with e | rows
  · rfl
  · rcases rows with _ | ⟨c, t⟩
    · rfl
    · have hc : c.isSome = true := wf.wins _ _ _ hraw c (by simp)
      rcases c with _ | n
      · simp at hc
      · show exOk (match pyOrZero (some n) with
          | none => Except.error nanMsg
          | some w => Except.ok (some _)) = true
        have hz : ∃ m, pyOrZero (some n) = some m := by
          unfold pyOrZero
          by_cases h0 : (n == 0) = true <;> simp [h0]
        obtain ⟨m, hm⟩ := hz
        rw [hm]
        rfl

theorem handleChampDriver_ok {env : DBEnv} (wf : WellFormedDB env) (a : Args)
    (hy : a.year.isSome = true) : exOk (handleChampDriver env a) = true := by
  rcases a with ⟨tm, dv, _ | y⟩
  · simp at hy
  · unfold handleChampDriver q_driver_champion
    dsimp only
    rcases hraw : env.champDriverRaw y with e | rows
    · rfl
    · rcases rows with _ | ⟨r, t⟩
      · rfl
      · have hr := wf.champD _ _ hraw r (by simp)
        rcases r with ⟨ch, _ | p, _ | w⟩ <;> simp_all [safeQ, exOk]

theorem handleChampCons_ok {env : DBEnv} (wf : WellFormedDB env) (a : Args)
    (hy : a.year.isSome = true) : exOk (handleChampCons env a) = true := by
  rcases a with ⟨tm, dv, _ | y⟩
  · simp at hy
  · unfold handleChampCons q_constructor_champion
    dsimp only
    rcases hraw : env.champConsRaw y with e | rows
    · rfl
    · rcases rows with _ | ⟨r, t⟩
      · rfl
      · have hr := wf.champC _ _ hraw r (by simp)
        rcases r with ⟨ch, _ | p, _ | w⟩ <;> simp_all [safeQ, exOk]

theorem ptsLines_ok (rows : List PtsRow)
    (h : ∀ r ∈ rows, r.round.isSome = true ∧ r.pts.isSome = true) :
    exOk (ptsLines rows) = true := by
  induction rows with
  | nil => rfl
  | cons r t ih =>
    have hr := h r (by simp)
    have ht : exOk (ptsLines t) = true := ih (fun x hx => h x (by simp [hx]))
    rcases r with ⟨_ | rd, race, _ | p⟩ <;> simp_all
    unfold ptsLines
    rcases hpl : ptsLines t with e | rest
    · rw [hpl] at ht; simp [exOk] at ht
    · rfl

theorem handleTeamPoints_ok {env : DBEnv} (wf : WellFormedDB env) (a : Args) :
    exOk (handleTeamPoints env a) = true := by
  unfold handleTeamPoints q_points_by_race
  dsimp only
  rcases hraw : env.ptsRaw
      (match pyOrOptInt a.year (latest_year env) with
       | none => latest_year env
       | some v => some v) a.team with e | rows
  · rfl
  · rcases rows with _ | ⟨r, t⟩
    · rfl
    · have hall := wf.pts _ _ _ hraw
      have hl : exOk (ptsLines (r :: t)) = true := ptsLines_ok _ hall
      show exOk (match ptsLines (r :: t) with
        | .error e => Except.error e
        | .ok lines => Except.ok (some _)) = true
      rcases hpl : ptsLines (r :: t) with e | lines
      · rw [hpl] at hl; simp [exOk] at hl
      · rfl

theorem answer_with_db1_ok {env : DBEnv} (wf : WellFormedDB env)
    (intent : String) (a : Args)
    (hy : intent = "champ_driver" ∨ intent = "champ_constructor" →
      a.year.isSome = true) :
    exOk (answer_with_db1 env intent a) = true := by
  unfold answer_with_db1
  split
  · split
    · exact handleTeamDrivers_ok wf a
    · split
      · exact handleDriverWins_ok wf a
      · split
        · rename_i h
          exact handleChampDriver_ok wf a (hy (Or.inl (by simpa using h)))
        · split
          · rename_i h
            exact handleChampCons_ok wf a (hy (Or.inr (by simpa using h)))
          · split
            · exact handleTeamPoints_ok wf a
            · rfl
  · rfl

theorem auStep_ok {r next : Except String (Option String)}
    (hr : exOk r = true) (hn : exOk next = true) :
    exOk (auStep r next) = true := by
  rcases r with e | out
  · simp [exOk] at hr
  · simp only [auStep]
    split
    · rfl
    · exact hn

theorem autoBranch_ok {env : DBEnv} (wf : WellFormedDB env) (a : Args) :
    exOk (autoBranch env a) = true := by
  unfold autoBranch
  have hyear : ∀ y : Option Int, truthyOptInt y = true → y.isSome = true :=
    fun _ h => truthyOptInt_isSome h
  apply auStep_ok
  · split
    · exact answer_with_db1_ok wf _ _ (by simp)
    · rfl
  apply auStep_ok
  · split
    · rename_i h
      exact answer_with_db1_ok wf _ _ (fun _ => hyear _ h)
    · rfl
  apply auStep_ok
  · split
    · rename_i h
      exact answer_with_db1_ok wf _ _ (fun _ => hyear _ h)
    · rfl
  apply auStep_ok
  · split
    · exact answer_with_db1_ok wf _ _ (by simp)
    · rfl
  · rfl

theorem answer_with_db_ok {env : DBEnv} (wf : WellFormedDB env)
    (intent : String) (a : Args)
    (hy : intent = "champ_driver" ∨ intent = "champ_constructor" →
      a.year.isSome = true) :
    exOk (answer_with_db env intent a) = true := by
  unfold answer_with_db
  split
  · split
    · exact autoBranch_ok wf a
    · exact answer_with_db1_ok wf intent a hy
  · rfl

theorem build_answer_ok {env : DBEnv} (wf : WellFormedDB env)
    (lenv : LiveEnv) (q : String) :
    exOk (build_answer env lenv q) = true := by
  unfold build_answer
  have hdb : exOk (answer_with_db env (parse_question q).1 (parse_question q).2)
      = true :=
    answer_with_db_ok wf _ _ (fun h => parse_champ_year q h)
  rcases hd : answer_with_db env (parse_question q).1 (parse_question q).2
    with e | out
  · rw [hd] at hdb; simp [exOk] at hdb
  · dsimp only
    split
    · rfl
    · split <;> rfl

theorem af_teamDrivers {env : DBEnv} (af : AllFailDB env) (a : Args) :
    handleTeamDrivers env a = .ok none := by
  unfold handleTeamDrivers q_constructor_drivers
  dsimp only
  rw [af.teamD]
  rfl

theorem af_driverWins {env : DBEnv} (af : AllFailDB env) (a : Args) :
    handleDriverWins env a = .ok none := by
  unfold handleDriverWins q_driver_wins
  dsimp only
  rw [af.wins]
  rfl

theorem af_champDriver {env : DBEnv} (af : AllFailDB env) (a : Args)
    (hy : a.year.isSome = true) : handleChampDriver env a = .ok none := by
  rcases a with ⟨tm, dv, _ | y⟩
  · simp at hy
  · unfold handleChampDriver q_driver_champion
    dsimp only
    rw [af.champD]
    rfl

theorem af_champCons {env : DBEnv} (af : AllFailDB env) (a : Args)
    (hy : a.year.isSome = true) : handleChampCons env a = .ok none := by
  rcases a with ⟨tm, dv, _ | y⟩
  · simp at hy
  · unfold handleChampCons q_constructor_champion
    dsimp only
    rw [af.champC]
    rfl

theorem af_teamPoints {env : DBEnv} (af : AllFailDB env) (a : Args) :
    handleTeamPoints env a = .ok none := by
  unfold handleTeamPoints q_points_by_race
  dsimp only
  rw [af.pts]
  rfl

theorem af_db1 {env : DBEnv} (af : AllFailDB env) (intent : String) (a : Args)
    (hy : intent = "champ_driver" ∨ intent = "champ_constructor" →
      a.year.isSome = true) :
    answer_with_db1 env intent a = .ok none := by
  unfold answer_with_db1
  split
  · split
    · exact af_teamDrivers af a
    · split
      · exact af_driverWins af a
      · split
        · rename_i h
          exact af_champDriver af a (hy (Or.inl (by simpa using h)))
        · split
          · rename_i h
            exact af_champCons af a (hy (Or.inr (by simpa using h)))
          · split
            · exact af_teamPoints af a
            · rfl
  · rfl

theorem af_auto {env : DBEnv} (af : AllFailDB env) (a : Args) :
    autoBranch env a = .ok none := by
  unfold autoBranch
  have step : ∀ r next, r = Except.ok none → next = Except.ok none →
      auStep r next = .ok none := by
    intro r next hr hn
    rw [hr, hn]
    rfl
  apply step
  · split
    · exact af_db1 af _ _ (by simp)
    · rfl
  apply step
  · split
    · rename_i h
      exact af_db1 af _ _ (fun _ => truthyOptInt_isSome h)
    · rfl
  apply step
  · split
    · rename_i h
      exact af_db1 af _ _ (fun _ => truthyOptInt_isSome h)
    · rfl
  apply step
  · split
    · exact af_db1 af _ _ (by simp)
    · rfl
  · rfl

theorem af_db {env : DBEnv} (af : AllFailDB env) (q : String) :
    answer_with_db env (parse_question q).1 (parse_question q).2 = .ok none := by
  unfold answer_with_db
  split
  · split
    · exact af_auto af _
    · exact af_db1 af _ _ (fun h => parse_champ_year q h)
  · rfl

end F1App


namespace F1App

/-- All raw queries of `envOff` fail (they are constant `.error`). -/
theorem envOff_wf : WellFormedDB envOff :=
  ⟨fun _ _ _ h => (nomatch h), fun _ _ _ h => (nomatch h),
   fun _ _ h => (nomatch h), fun _ _ h => (nomatch h),
   fun _ _ _ h => (nomatch h)⟩

/-- `envAllFail` fails every query. -/
theorem envAllFail_af : AllFailDB envAllFail :=
  ⟨rfl, fun _ _ => rfl, fun _ _ => rfl, fun _ => rfl, fun _ => rfl,
   fun _ _ => rfl⟩

/-- Evaluation of the roster NULL paths of the `team_drivers` block: a SQL
NULL driver-name cell among strings makes `sorted` raise out of the
composer; an all-NULL column survives `sorted` as a singleton and makes
`join` raise; a NULL-free column is deduplicated, sorted by code point and
joined. -/
theorem teamDrivers_null_cell_raises :
    build_answer envNullDriver lenvOff "who drives for ferrari in 2024"
        = .error sortNoneMsg
    ∧ build_answer envNullOnly lenvOff "who drives for ferrari in 2024"
        = .error joinNoneMsg
    ∧ build_answer envRoster lenvOff "who drives for ferrari in 2024"
        = .ok "**Ferrari** drivers in **2024**: Carlos Sainz, Charles Leclerc." :=
  ⟨by rfl, by rfl, by rfl⟩

/-! ## Claims -/

/-- C1: for every question, database environment and live environment, when
`build_answer` returns (does not raise) its answer is non-empty; a truthy
structured answer is returned as-is; and when the structured step yields
nothing the answer is the live text when present, the fixed deterministic
fallback message otherwise. -/
theorem claim1_build_answer_nonempty (env : DBEnv) (lenv : LiveEnv) (q : String) :
    (∀ r : String, build_answer env lenv q = .ok r → r ≠ "")
    ∧ (∀ s : String,
        answer_with_db env (parse_question q).1 (parse_question q).2
          = .ok (some s) → s ≠ "" → build_answer env lenv q = .ok s)
    ∧ (answer_with_db env (parse_question q).1 (parse_question q).2 = .ok none →
        build_answer env lenv q
          = .ok ((answer_with_live lenv q).getD FALLBACK_MSG)) := by
  refine ⟨?_, fun s h hs => build_db_first env lenv q s h hs,
    fun h => build_db_none env lenv q h⟩
  intro r hr
  unfold build_answer at hr
  rcases hd : answer_with_db env (parse_question q).1 (parse_question q).2
    with e | out
  · rw [hd] at hr; simp at hr
  · rw [hd] at hr
    dsimp only at hr
    by_cases ht : truthyOptStr out = true
    · rw [if_pos ht] at hr
      rcases out with _ | s
      · simp [truthyOptStr] at ht
      · cases hr
        simpa [truthyOptStr] using ht
    · rw [if_neg ht] at hr
      rcases hl : answer_with_live lenv q with _ | t <;> rw [hl] at hr
      · simp only [truthyOptStr, if_false] at hr
        cases hr
        decide
      · have htne : t ≠ "" := live_some_ne hl
        simp only [truthyOptStr] at hr
        rw [if_pos (by simpa using htne)] at hr
        cases hr
        simpa using htne

/-- C1 witness: with both backends off, the composer returns the fallback
(instantiating the third conjunct at a concrete input). -/
theorem claim1_witness :
    build_answer envOff lenvOff "hi"
      = .ok ((answer_with_live lenvOff "hi").getD FALLBACK_MSG) :=
  (claim1_build_answer_nonempty envOff lenvOff "hi").2.2 (by rfl)


/-- C2 counterexample: `build_answer` has no top-level exception handler.
With a database whose championship query returns a row whose `points` cell
is NULL/NaN (`envNan`), the composer's `int(row['points'])` conversion
raises and the exception propagates out of `build_answer` (an `.error`
result at the composer's own type), contradicting the claim that every
failure inside the classify/structured/live sequence is converted into
answer text. -/
theorem claim2_counterexample :
    build_answer envNan lenvOff "who won in 2021?" = .error nanMsg := by rfl

/-- C2 (amended): failures of query execution and of the live call are
contained (`_safe_query` and `answer_with_live` catch internally), but the
composer itself adds no handler; `build_answer` is exception-free only
under the assumption that no structured result row carries a NULL/NaN
numeric cell in an `int(...)`-converted position, nor a NULL driver-name
cell in a roster result (where the `sorted`/`join` of the `team_drivers`
block would raise `TypeError`). -/
theorem claim2_no_raise_on_wellformed_db
    (env : DBEnv) (wf : WellFormedDB env) (lenv : LiveEnv) (q : String) :
    exOk (build_answer env lenv q) = true :=
  build_answer_ok wf lenv q

/-- C2 witness: a concrete well-formed (degenerate) environment on a
concrete question. -/
theorem claim2_witness : exOk (build_answer envOff lenvOff "hi") = true :=
  claim2_no_raise_on_wellformed_db envOff envOff_wf lenvOff "hi"

/-- C3 (code bug evaluated): the three historical team spellings do not
unify.  "toro rosso" normalizes to "AlphaTauri", but "alphatauri" titles to
"Alphatauri", which is not in the normalization list (its entry
"AlphaTauri" is unreachable, since `.title()` never produces an interior
capital), and "alpha tauri" matches no alternative of `TEAM_RE` at all (the
pattern has no spaced variant), so no team is extracted. -/
theorem claim3_team_alias_divergence :
    (parse_question "who drives for toro rosso").2.team = some "AlphaTauri"
    ∧ (parse_question "who drives for alphatauri").2.team = some "Alphatauri"
    ∧ (parse_question "who drives for alpha tauri").2.team = none
    ∧ ("AlphaTauri" : String) ≠ "Alphatauri" := by
  refine ⟨by rfl, by rfl, by rfl, by decide⟩

/-- C4 counterexample: no rewriting of the question text and no
prefer-structured flag exist.  The classifier's entire output for
"who won in 2021?" is the intent/slot pair — no rewritten phrasing, no
flag — and when the structured backend yields nothing the live backend
receives the original question text verbatim inside the fixed generic
prompt (observable through the echoing live environment), not a canonical
championship phrasing. -/
theorem claim4_counterexample :
    parse_question "who won in 2021?" = ("champ_driver", ⟨none, none, some 2021⟩)
    ∧ build_answer envOff lenvEcho "who won in 2021?"
        = .ok (LIVE_HEADER ++ "who won in 2021?")
    ∧ pyIn "who won in 2021?" (LIVE_HEADER ++ "who won in 2021?") = true := by
  refine ⟨by rfl, by rfl, by rfl⟩

/-- C4 (amended): "who won in 2021?" is deterministically classified to the
canonical championship intent (`champ_driver` with year 2021), and the
composer consults the structured backend first: whenever that intent
produces a truthy structured answer, it is the composed answer, whatever
the live backend would say. -/
theorem claim4_champ_shortcut (env : DBEnv) (lenv : LiveEnv) :
    parse_question "who won in 2021?" = ("champ_driver", ⟨none, none, some 2021⟩)
    ∧ (∀ s : String,
        answer_with_db env "champ_driver" ⟨none, none, some 2021⟩ = .ok (some s) →
        s ≠ "" → build_answer env lenv "who won in 2021?" = .ok s) := by
  constructor
  · rfl
  · intro s h hs
    exact build_db_first env lenv "who won in 2021?" s (by exact h) hs

/-- C4 witness: a concrete championship row is returned ahead of an echoing
live backend. -/
theorem claim4_witness :
    build_answer envChamp lenvEcho "who won in 2021?"
      = .ok "**2021 F1 Driver Champion:** **Max Verstappen**  \nPoints: 395 • Wins: 10" :=
  (claim4_champ_shortcut envChamp lenvEcho).2 _ (by rfl) (by decide)

/-- C5 counterexample: for the keyword-less question "x y" the classifier
produces only the `auto` intent with empty slots — no text is rewritten
before dispatch — and the text that eventually reaches the live backend is
the fixed generic prompt around the original question, which does not begin
with the claimed domain qualifier "In Formula 1 context". -/
theorem claim5_counterexample :
    parse_question "x y" = ("auto", ⟨none, none, none⟩)
    ∧ build_answer envOff lenvEcho "x y" = .ok (LIVE_HEADER ++ "x y")
    ∧ leadsWith "In Formula 1 context".data (LIVE_HEADER ++ "x y").data = false := by
  refine ⟨by rfl, by rfl, by rfl⟩

/-- C5 (amended): there is no keyword-based domain check anywhere; instead
`answer_with_live` unconditionally embeds every question — keyword match or
not — in the one fixed F1-context prompt before the live call, a total
rewriting that cannot fail, and the prompt always starts with the fixed
header and contains the original question verbatim. -/
theorem claim5_live_prompt (lenv : LiveEnv) (q : String) :
    (lenv.liveOk = true →
      answer_with_live lenv q
        = (match lenv.call (LIVE_HEADER ++ q) with
           | .error _ => none
           | .ok t =>
             if String.mk (pyStripL (t.getD "").data) == "" then none
             else some (String.mk (pyStripL (t.getD "").data))))
    ∧ leadsWith LIVE_HEADER.data (livePrompt q).data = true := by
  constructor
  · intro h
    unfold answer_with_live livePrompt
    rw [if_pos h]
  · show leadsWith LIVE_HEADER.data (LIVE_HEADER ++ q).data = true
    have happ : (LIVE_HEADER ++ q).data = LIVE_HEADER.data ++ q.data := by
      cases hh : LIVE_HEADER
      cases hq : q
      rfl
    rw [happ]
    have : ∀ l1 l2 : List Char, leadsWith l1 (l1 ++ l2) = true := by
      intro l1
      induction l1 with
      | nil => intro l2; rfl
      | cons c t ih => intro l2; simpa [leadsWith] using ih l2
    exact this _ _

/-- C5 witness: the prompt equation at a concrete live environment and
question. -/
theorem claim5_witness :
    answer_with_live lenvEcho "pole position"
      = (match lenvEcho.call (LIVE_HEADER ++ "pole position") with
         | .error _ => none
         | .ok t =>
           if String.mk (pyStripL (t.getD "").data) == "" then none
           else some (String.mk (pyStripL (t.getD "").data))) :=
  (claim5_live_prompt lenvEcho "pole position").1 (by rfl)

/-- C6: when every structured query raises during execution, the failure is
contained — `answer_with_db` returns "nothing found" rather than raising —
and the composer proceeds to the live backend: the composed answer is the
live text when there is one, the fixed fallback otherwise. -/
theorem claim6_db_failure_isolated (env : DBEnv) (lenv : LiveEnv) (q : String)
    (af : AllFailDB env) :
    answer_with_db env (parse_question q).1 (parse_question q).2 = .ok none
    ∧ build_answer env lenv q
        = .ok ((answer_with_live lenv q).getD FALLBACK_MSG) := by
  have hdb := af_db af q
  exact ⟨hdb, build_db_none env lenv q hdb⟩

/-- C6 witness: a database that throws on every query, with an echoing live
backend: the composer still reaches the live call. -/
theorem claim6_witness :
    answer_with_db envAllFail (parse_question "who won in 2021?").1
        (parse_question "who won in 2021?").2 = .ok none
    ∧ build_answer envAllFail lenvEcho "who won in 2021?"
        = .ok ((answer_with_live lenvEcho "who won in 2021?").getD FALLBACK_MSG) :=
  claim6_db_failure_isolated envAllFail lenvEcho "who won in 2021?" envAllFail_af


/-- C10: `parse_question` always produces one of the six fixed intent tags,
and whenever the tag is `champ_driver` or `champ_constructor` the year slot
is present (the regex only yields values in 1900-2099, which are truthy),
so the composer's unconditional `int(args["year"])` conversion for those
intents cannot fail. -/
theorem claim10_intent_invariant (q : String) :
    (parse_question q).1 ∈ intentTags
    ∧ ((parse_question q).1 = "champ_driver"
        ∨ (parse_question q).1 = "champ_constructor" →
       (parse_question q).2.year.isSome = true) :=
  ⟨parse_intent_mem q, fun h => parse_champ_year q h⟩

/-- C10 witness: the championship question instantiates both conjuncts. -/
theorem claim10_witness :
    (parse_question "who won in 2021?").1 ∈ intentTags
    ∧ (parse_question "who won in 2021?").2.year.isSome = true :=
  ⟨(claim10_intent_invariant "who won in 2021?").1,
   (claim10_intent_invariant "who won in 2021?").2 (Or.inl (by rfl))⟩

end F1App

namespace SqlAgent

/-- C7: the safety policy of `llm_to_sql` rejects, before any execution,
every candidate statement that does not begin with `SELECT`/`WITH` (after
optional whitespace, case-insensitively, at a word boundary) and every
statement containing a semicolon followed by further text; a statement
passing both checks — in particular one with a single trailing semicolon —
is accepted as-is; and a rejection raised at the translation step surfaces
to the caller of `answer` as a failed call (no handler intervenes). -/
theorem claim7_safety_policy (raw : String) :
    (startsSelWith (F1App.pyStripL raw.data) = false →
      llm_to_sql_safety raw = .error "Only SELECT/WITH queries are allowed.")
    ∧ (startsSelWith (F1App.pyStripL raw.data) = true →
       chainSemi (F1App.pyStripL raw.data) = true →
      llm_to_sql_safety raw = .error "Multiple statements not allowed.")
    ∧ (startsSelWith (F1App.pyStripL raw.data) = true →
       chainSemi (F1App.pyStripL raw.data) = false →
      llm_to_sql_safety raw = .ok (String.mk (F1App.pyStripL raw.data)))
    ∧ (∀ (n : Nat) (e : String), llm_to_sql_safety raw = .error e →
      answerPipeline raw n = .error e) := by
  refine ⟨fun h1 => ?_, fun h1 h2 => ?_, fun h1 h2 => ?_, fun n e h => ?_⟩
  · unfold llm_to_sql_safety
    simp [h1]
  · unfold llm_to_sql_safety
    simp [h1, h2]
  · unfold llm_to_sql_safety
    simp [h1, h2]
  · unfold answerPipeline
    rw [h]

/-- C7 witness: chaining is rejected, a single trailing semicolon is
accepted. -/
theorem claim7_witness :
    llm_to_sql_safety "SELECT 1; DROP TABLE races"
        = .error "Multiple statements not allowed."
    ∧ llm_to_sql_safety "SELECT 1;" = .ok "SELECT 1;" :=
  ⟨(claim7_safety_policy "SELECT 1; DROP TABLE races").2.1 (by decide) (by decide),
   (claim7_safety_policy "SELECT 1;").2.2.1 (by decide) (by decide)⟩

/-- The appended row cap is never the empty string, so appending it changes
the statement. -/
theorem rowCap_append_ne (sql : String) (n : Nat) :
    sql ++ ("\nLIMIT " ++ toString n) ≠ sql := by
  intro h
  have hlen := congrArg String.length h
  rw [String.length_append, String.length_append] at hlen
  have h7 : ("\nLIMIT ").length = 7 := rfl
  rw [h7] at hlen
  omega

/-- C8: `answer` appends `LIMIT max_rows` to the accepted statement exactly
when the statement has no `LIMIT` keyword, no aggregation function
(`count`/`sum`/`avg`/`min`/`max` followed by an opening paren) and no
`GROUP BY` clause; a statement with any of these is passed through
unmodified. -/
theorem claim8_row_cap (sql : String) (n : Nat) :
    ((hasLimitKw sql = false ∧ hasAgg sql = false ∧ hasGroupBy sql = false)
      ↔ applyRowCap sql n = sql ++ ("\nLIMIT " ++ toString n))
    ∧ ((hasLimitKw sql = true ∨ hasAgg sql = true ∨ hasGroupBy sql = true)
      ↔ applyRowCap sql n = sql) := by
  have hn : needs_limit sql = true ↔
      (hasLimitKw sql = false ∧ hasAgg sql = false ∧ hasGroupBy sql = false) := by
    unfold needs_limit
    constructor
    · intro h
      simp only [Bool.and_eq_true, Bool.not_eq_true'] at h
      exact ⟨h.1.1, h.1.2, h.2⟩
    · intro ⟨h1, h2, h3⟩
      simp [h1, h2, h3]
  by_cases h : needs_limit sql = true
  · have hcap : applyRowCap sql n = sql ++ ("\nLIMIT " ++ toString n) := by
      unfold applyRowCap
      rw [if_pos h]
    constructor
    · exact ⟨fun _ => hcap, fun _ => hn.mp h⟩
    · constructor
      · intro hor
        obtain ⟨h1, h2, h3⟩ := hn.mp h
        rcases hor with h4 | h4 | h4 <;> simp_all
      · intro heq
        rw [hcap] at heq
        exact absurd heq (rowCap_append_ne sql n)
  · have hcap : applyRowCap sql n = sql := by
      unfold applyRowCap
      rw [if_neg h]
    have hnot : ¬ (hasLimitKw sql = false ∧ hasAgg sql = false
        ∧ hasGroupBy sql = false) := fun hc => h (hn.mpr hc)
    constructor
    · constructor
      · intro hc
        exact absurd hc hnot
      · intro heq
        rw [hcap] at heq
        exact absurd heq.symm (rowCap_append_ne sql n)
    · constructor
      · intro _
        exact hcap
      · intro _
        by_contra hor
        push_neg at hor
        apply hnot
        refine ⟨?_, ?_, ?_⟩ <;>
          simp only [Bool.not_eq_true] at hor <;> tauto

/-- C8 witness: a raw-row query receives the cap; an aggregated one is
unmodified. -/
theorem claim8_witness :
    applyRowCap "SELECT name FROM drivers" 200
        = "SELECT name FROM drivers" ++ ("\nLIMIT " ++ toString 200)
    ∧ applyRowCap "SELECT COUNT(*) FROM results" 200
        = "SELECT COUNT(*) FROM results" :=
  ⟨(claim8_row_cap "SELECT name FROM drivers" 200).1.mp (by decide),
   (claim8_row_cap "SELECT COUNT(*) FROM results" 200).2.mp (by decide)⟩

end SqlAgent

namespace RagWeb

/-- No citation produced by `dedupeUrl seen l` carries a URL from `seen`. -/
theorem dedupeUrl_not_seen (seen : List String) (l : List Citation) :
    ∀ c ∈ dedupeUrl seen l, ¬ seen.contains c.url = true := by
  induction l generalizing seen with
  | nil => intro c hc; cases hc
  | cons a t ih =>
    intro c hc
    unfold dedupeUrl at hc
    by_cases hs : seen.contains a.url = true
    · rw [if_pos hs] at hc
      exact ih seen c hc
    · rw [if_neg hs] at hc
      rcases List.mem_cons.mp hc with rfl | hmem
      · exact hs
      · intro hcon
        refine ih (a.url :: seen) c hmem ?_
        have hmem2 : c.url ∈ a.url :: seen := by
          have : c.url ∈ seen := by simpa using hcon
          exact List.mem_cons_of_mem _ this
        simpa using hmem2

/-- `dedupeUrl` output has pairwise-distinct URLs. -/
theorem dedupeUrl_pairwise (seen : List String) (l : List Citation) :
    List.Pairwise (fun a b : Citation => a.url ≠ b.url) (dedupeUrl seen l) := by
  induction l generalizing seen with
  | nil => exact List.Pairwise.nil
  | cons a t ih =>
    unfold dedupeUrl
    by_cases hs : seen.contains a.url = true
    · rw [if_pos hs]
      exact ih seen
    · rw [if_neg hs]
      refine List.Pairwise.cons ?_ (ih (a.url :: seen))
      intro b hb heq
      refine dedupeUrl_not_seen (a.url :: seen) t b hb ?_
      have hmem2 : b.url ∈ a.url :: seen := by
        rw [← heq]
        exact List.mem_cons_self _ _
      simpa using hmem2

/-- C9: the citation list of `ask_live` never exceeds 8 entries, never
contains two citations with the same URL, and the markdown-link text parse
is bypassed whenever the grounding metadata produced any citation: in that
case the result is exactly the metadata citations, deduplicated and
capped. -/
theorem claim9_citations (r : LiveRsp) :
    (ask_live r).2.length ≤ 8
    ∧ List.Pairwise (fun a b : Citation => a.url ≠ b.url) (ask_live r).2
    ∧ (r.meta ≠ [] → (ask_live r).2 = (dedupeUrl [] r.meta).take 8) := by
  refine ⟨?_, ?_, ?_⟩
  · show ((dedupeUrl [] _).take 8).length ≤ 8
    simp
  · show List.Pairwise _ ((dedupeUrl [] _).take 8)
    exact (dedupeUrl_pairwise [] _).sublist (List.take_sublist 8 _)
  · intro h
    show (dedupeUrl [] (if r.meta.isEmpty then _ else r.meta)).take 8 = _
    rw [if_neg (by simpa using h)]

/-- C9 witness: duplicate metadata URLs collapse, instantiating the
metadata-preferred path at a concrete response. -/
theorem claim9_witness :
    (ask_live ⟨some "see [md](https://md.example/1)",
        [⟨"a", "https://u.example/1"⟩, ⟨"b", "https://u.example/1"⟩]⟩).2
      = (dedupeUrl [] [⟨"a", "https://u.example/1"⟩,
          ⟨"b", "https://u.example/1"⟩]).take 8 :=
  (claim9_citations ⟨some "see [md](https://md.example/1)",
      [⟨"a", "https://u.example/1"⟩, ⟨"b", "https://u.example/1"⟩]⟩).2.2
    (by decide)

end RagWeb
